import Mathlib

/-!
Verification of the pipecat voice-service repository.

The file embeds, as executable Lean definitions, the pure logic of:
* `agents/orchestrator.py` — `OrchestratorAgent.analyze_intent`;
* `services/workflow_client.py` — `WorkflowClient.generate_workflow`
  (payload construction and error handling);
* `main.py` — `end_session`, `start_session` request bodies,
  `switch_to_agent` and `handle_route_to_agent`.

Theorems about these definitions settle the spec claims.
-/

/-- Python string containment `needle.isPrefixOf hay` on character lists:
true iff `needle` is an initial segment of `hay`. -/
def listPrefixOf : List Char → List Char → Bool
  | [], _ => true
  | _ :: _, [] => false
  | a :: as, b :: bs => a == b && listPrefixOf as bs

/-- Python substring test `needle in hay` on character lists:
true iff `needle` occurs contiguously inside `hay`
(the empty needle is contained in everything, as in Python). -/
def listContains : List Char → List Char → Bool
  | needle, [] => needle.isEmpty
  | needle, c :: rest => listPrefixOf needle (c :: rest) || listContains needle rest

/-- Python `str.lower()` on the character data (ASCII case folding,
which is all the keyword tables exercise). -/
def pyLower (s : String) : List Char := s.data.map Char.toLower

/-- Python `kw in message_lower` for a keyword string against an
already-lowercased message. -/
def kwIn (kw : String) (messageLower : List Char) : Bool :=
  listContains kw.data messageLower

/-- Python `sum(1 for kw in keywords if kw in message_lower)`:
the number of keywords occurring as substrings of the message. -/
def countKw (keywords : List String) (messageLower : List Char) : Nat :=
  (keywords.filter (fun kw => kwIn kw messageLower)).length

/-- `sales_keywords` from `OrchestratorAgent.analyze_intent`. -/
def sales_keywords : List String :=
  ["crm", "lead", "sales", "pipeline", "deal", "customer",
   "hubspot", "salesforce", "pipedrive", "prospect"]

/-- `support_keywords` from `OrchestratorAgent.analyze_intent`. -/
def support_keywords : List String :=
  ["ticket", "support", "helpdesk", "zendesk", "intercom",
   "customer service", "escalate", "sla"]

/-- `ops_keywords` from `OrchestratorAgent.analyze_intent`. -/
def ops_keywords : List String :=
  ["data", "sync", "report", "schedule", "backup", "database",
   "analytics", "daily", "weekly", "monthly"]

/-- `tech_keywords` from `OrchestratorAgent.analyze_intent`. -/
def tech_keywords : List String :=
  ["api", "webhook", "http", "rest", "endpoint", "database",
   "postgres", "mysql", "integration", "authentication"]

/-- `sales_score` computed in `analyze_intent`. -/
def sales_score (user_message : String) : Nat :=
  countKw sales_keywords (pyLower user_message)

/-- `support_score` computed in `analyze_intent`. -/
def support_score (user_message : String) : Nat :=
  countKw support_keywords (pyLower user_message)

/-- `ops_score` computed in `analyze_intent`. -/
def ops_score (user_message : String) : Nat :=
  countKw ops_keywords (pyLower user_message)

/-- `tech_score` computed in `analyze_intent`. -/
def tech_score (user_message : String) : Nat :=
  countKw tech_keywords (pyLower user_message)

/-- The `scores` dict of `analyze_intent`, in its insertion order. -/
def scoresDict (user_message : String) : List (String × Nat) :=
  [("sales", sales_score user_message),
   ("support", support_score user_message),
   ("operations", ops_score user_message),
   ("technical", tech_score user_message)]

/-- Python `max(scores.values())`. -/
def max_score (user_message : String) : Nat :=
  Nat.max (Nat.max (Nat.max (sales_score user_message) (support_score user_message))
    (ops_score user_message)) (tech_score user_message)

/-- `OrchestratorAgent.analyze_intent`: count keyword matches per domain and
return the highest-scoring domain, `none` when every score is zero.
Python `max(scores, key=scores.get)` returns the first key, in dict
insertion order, whose value equals the maximum. -/
def analyze_intent (user_message : String) : Option String :=
  if max_score user_message > 0 then
    ((scoresDict user_message).find? (fun p => p.2 == max_score user_message)).map Prod.fst
  else
    none

/-- `max(scores.values())` bounds every score and is attained by one of them. -/
lemma max_score_spec (msg : String) :
    sales_score msg ≤ max_score msg ∧ support_score msg ≤ max_score msg ∧
    ops_score msg ≤ max_score msg ∧ tech_score msg ≤ max_score msg ∧
    (max_score msg = sales_score msg ∨ max_score msg = support_score msg ∨
     max_score msg = ops_score msg ∨ max_score msg = tech_score msg) := by
  unfold max_score
  simp only [Nat.max_def]
  split_ifs <;> omega

/-- Case normal form of `analyze_intent`: the first domain in dict insertion
order whose score equals the maximum, guarded by the positivity check. -/
lemma analyze_intent_cases (msg : String) :
    analyze_intent msg =
      if max_score msg > 0 then
        if sales_score msg = max_score msg then some "sales"
        else if support_score msg = max_score msg then some "support"
        else if ops_score msg = max_score msg then some "operations"
        else if tech_score msg = max_score msg then some "technical"
        else none
      else none := by
  unfold analyze_intent scoresDict
  split
  · by_cases h1 : sales_score msg = max_score msg <;>
      by_cases h2 : support_score msg = max_score msg <;>
        by_cases h3 : ops_score msg = max_score msg <;>
          by_cases h4 : tech_score msg = max_score msg <;>
            simp [List.find?, beq_eq_decide, h1, h2, h3, h4]
  · rfl

/-- C1: for every utterance in which exactly one domain's keyword-match count
is the unique maximum among the four domains and that count is nonzero,
`analyze_intent` returns that domain's label. -/
theorem analyze_intent_unique_max (msg d : String) (s : Nat)
    (hmem : (d, s) ∈ scoresDict msg) (hpos : 0 < s)
    (hmax : ∀ p ∈ scoresDict msg, p.1 ≠ d → p.2 < s) :
    analyze_intent msg = some d := by
  obtain ⟨hle1, hle2, hle3, hle4, hor⟩ := max_score_spec msg
  simp only [scoresDict, List.mem_cons, List.not_mem_nil, or_false, Prod.mk.injEq] at hmem
  rcases hmem with ⟨hd, hs⟩ | ⟨hd, hs⟩ | ⟨hd, hs⟩ | ⟨hd, hs⟩
  · subst hd; subst hs
    have e2 : support_score msg < sales_score msg :=
      hmax ("support", support_score msg) (by simp [scoresDict])
        (by show ("support" : String) ≠ "sales"; decide)
    have e3 : ops_score msg < sales_score msg :=
      hmax ("operations", ops_score msg) (by simp [scoresDict])
        (by show ("operations" : String) ≠ "sales"; decide)
    have e4 : tech_score msg < sales_score msg :=
      hmax ("technical", tech_score msg) (by simp [scoresDict])
        (by show ("technical" : String) ≠ "sales"; decide)
    rw [analyze_intent_cases, if_pos (by omega : max_score msg > 0),
      if_pos (by omega : sales_score msg = max_score msg)]
  · subst hd; subst hs
    have e1 : sales_score msg < support_score msg :=
      hmax ("sales", sales_score msg) (by simp [scoresDict])
        (by show ("sales" : String) ≠ "support"; decide)
    have e3 : ops_score msg < support_score msg :=
      hmax ("operations", ops_score msg) (by simp [scoresDict])
        (by show ("operations" : String) ≠ "support"; decide)
    have e4 : tech_score msg < support_score msg :=
      hmax ("technical", tech_score msg) (by simp [scoresDict])
        (by show ("technical" : String) ≠ "support"; decide)
    rw [analyze_intent_cases, if_pos (by omega : max_score msg > 0),
      if_neg (by omega : ¬sales_score msg = max_score msg),
      if_pos (by omega : support_score msg = max_score msg)]
  · subst hd; subst hs
    have e1 : sales_score msg < ops_score msg :=
      hmax ("sales", sales_score msg) (by simp [scoresDict])
        (by show ("sales" : String) ≠ "operations"; decide)
    have e2 : support_score msg < ops_score msg :=
      hmax ("support", support_score msg) (by simp [scoresDict])
        (by show ("support" : String) ≠ "operations"; decide)
    have e4 : tech_score msg < ops_score msg :=
      hmax ("technical", tech_score msg) (by simp [scoresDict])
        (by show ("technical" : String) ≠ "operations"; decide)
    rw [analyze_intent_cases, if_pos (by omega : max_score msg > 0),
      if_neg (by omega : ¬sales_score msg = max_score msg),
      if_neg (by omega : ¬support_score msg = max_score msg),
      if_pos (by omega : ops_score msg = max_score msg)]
  · subst hd; subst hs
    have e1 : sales_score msg < tech_score msg :=
      hmax ("sales", sales_score msg) (by simp [scoresDict])
        (by show ("sales" : String) ≠ "technical"; decide)
    have e2 : support_score msg < tech_score msg :=
      hmax ("support", support_score msg) (by simp [scoresDict])
        (by show ("support" : String) ≠ "technical"; decide)
    have e3 : ops_score msg < tech_score msg :=
      hmax ("operations", ops_score msg) (by simp [scoresDict])
        (by show ("operations" : String) ≠ "technical"; decide)
    rw [analyze_intent_cases, if_pos (by omega : max_score msg > 0),
      if_neg (by omega : ¬sales_score msg = max_score msg),
      if_neg (by omega : ¬support_score msg = max_score msg),
      if_neg (by omega : ¬ops_score msg = max_score msg),
      if_pos (by omega : tech_score msg = max_score msg)]

/-- Witness for C1 at the utterance "crm lead": sales uniquely scores 2,
and `analyze_intent` returns `sales`. -/
theorem analyze_intent_unique_max_witness :
    ("sales", 2) ∈ scoresDict "crm lead" ∧ 0 < 2 ∧
    (∀ p ∈ scoresDict "crm lead", p.1 ≠ "sales" → p.2 < 2) ∧
    analyze_intent "crm lead" = some "sales" :=
  ⟨by decide, by decide, by decide,
   analyze_intent_unique_max "crm lead" "sales" 2 (by decide) (by decide) (by decide)⟩

/-- C2: an utterance whose lowercased text contains no keyword of any of the
four sets (all four scores are zero) yields no match (`none`). -/
theorem analyze_intent_all_zero (msg : String)
    (h1 : sales_score msg = 0) (h2 : support_score msg = 0)
    (h3 : ops_score msg = 0) (h4 : tech_score msg = 0) :
    analyze_intent msg = none := by
  obtain ⟨hle1, hle2, hle3, hle4, hor⟩ := max_score_spec msg
  rw [analyze_intent_cases, if_neg (by omega : ¬max_score msg > 0)]

/-- Witness for C2 at the utterance "hello there": every score is zero and
`analyze_intent` returns `none`. -/
theorem analyze_intent_all_zero_witness :
    sales_score "hello there" = 0 ∧ support_score "hello there" = 0 ∧
    ops_score "hello there" = 0 ∧ tech_score "hello there" = 0 ∧
    analyze_intent "hello there" = none :=
  ⟨by decide, by decide, by decide, by decide,
   analyze_intent_all_zero "hello there" (by decide) (by decide) (by decide) (by decide)⟩

/-- C3 counterexample: on "I need to sync leads into our CRM" the other
domains do NOT all score zero — "sync" is an operations keyword, so the
operations score is 1, refuting the claimed score table. -/
theorem c3_claimed_scores_false :
    ¬ (sales_score "I need to sync leads into our CRM" = 2 ∧
       support_score "I need to sync leads into our CRM" = 0 ∧
       ops_score "I need to sync leads into our CRM" = 0 ∧
       tech_score "I need to sync leads into our CRM" = 0 ∧
       analyze_intent "I need to sync leads into our CRM" = some "sales") := by
  decide

/-- C3 amended: on "I need to sync leads into our CRM" the classifier
computes sales = 2 ("crm", "lead"), support = 0, operations = 1 ("sync"),
technical = 0, and `analyze_intent` returns `sales`. -/
theorem c3_amended_scores :
    sales_score "I need to sync leads into our CRM" = 2 ∧
    support_score "I need to sync leads into our CRM" = 0 ∧
    ops_score "I need to sync leads into our CRM" = 1 ∧
    tech_score "I need to sync leads into our CRM" = 0 ∧
    analyze_intent "I need to sync leads into our CRM" = some "sales" := by
  decide

/-- C9: when the nonzero maximal score is attained by two or more domains,
`analyze_intent` returns the first attaining domain in the fixed dict order
sales, support, operations, technical; and the utterance "database"
(whose keyword is shared by operations and technical) returns operations. -/
theorem analyze_intent_tie_first_in_order (msg : String)
    (hpos : 0 < max_score msg)
    (htie : 2 ≤ ((scoresDict msg).filter (fun p => p.2 == max_score msg)).length) :
    (analyze_intent msg =
      some (if sales_score msg = max_score msg then "sales"
        else if support_score msg = max_score msg then "support"
        else if ops_score msg = max_score msg then "operations"
        else "technical")) ∧
    analyze_intent "database" = some "operations" := by
  refine ⟨?_, by decide⟩
  obtain ⟨hle1, hle2, hle3, hle4, hor⟩ := max_score_spec msg
  rw [analyze_intent_cases, if_pos hpos]
  by_cases h1 : sales_score msg = max_score msg
  · rw [if_pos h1, if_pos h1]
  · rw [if_neg h1, if_neg h1]
    by_cases h2 : support_score msg = max_score msg
    · rw [if_pos h2, if_pos h2]
    · rw [if_neg h2, if_neg h2]
      by_cases h3 : ops_score msg = max_score msg
      · rw [if_pos h3, if_pos h3]
      · rw [if_neg h3, if_neg h3, if_pos (by omega : tech_score msg = max_score msg)]

/-- Witness for C9 at the utterance "sync api": operations and technical tie
at the maximal score 1, and `analyze_intent` returns `operations`, the
earlier of the two in the fixed order. -/
theorem analyze_intent_tie_witness :
    0 < max_score "sync api" ∧
    2 ≤ ((scoresDict "sync api").filter (fun p => p.2 == max_score "sync api")).length ∧
    ((analyze_intent "sync api" =
        some (if sales_score "sync api" = max_score "sync api" then "sales"
          else if support_score "sync api" = max_score "sync api" then "support"
          else if ops_score "sync api" = max_score "sync api" then "operations"
          else "technical")) ∧
      analyze_intent "database" = some "operations") :=
  ⟨by decide, by decide,
   analyze_intent_tie_first_in_order "sync api" (by decide) (by decide)⟩

/-- Python substring test `needle in hay` on strings. -/
def strIn (needle hay : String) : Bool := listContains needle.data hay.data

/-- Every list is a prefix of itself. -/
lemma listPrefixOf_refl (l : List Char) : listPrefixOf l l = true := by
  induction l with
  | nil => rfl
  | cons a as ih => simp [listPrefixOf, ih]

/-- A prefix of `l` is a prefix of `l ++ t`. -/
lemma listPrefixOf_append (n l t : List Char) (h : listPrefixOf n l = true) :
    listPrefixOf n (l ++ t) = true := by
  induction n generalizing l with
  | nil => rfl
  | cons a as ih =>
    cases l with
    | nil => simp [listPrefixOf] at h
    | cons b bs =>
      simp only [listPrefixOf, Bool.and_eq_true] at h
      simp only [List.cons_append, listPrefixOf, Bool.and_eq_true]
      exact ⟨h.1, ih bs h.2⟩

/-- The empty needle is contained in every haystack. -/
lemma listContains_nil (hay : List Char) : listContains [] hay = true := by
  cases hay with
  | nil => rfl
  | cons c rest => simp [listContains, listPrefixOf]

/-- Every list contains itself. -/
lemma listContains_refl (l : List Char) : listContains l l = true := by
  cases l with
  | nil => rfl
  | cons c rest => simp [listContains, listPrefixOf_refl]

/-- Containment in the left part survives appending on the right. -/
lemma listContains_append_left (n pre post : List Char)
    (h : listContains n pre = true) : listContains n (pre ++ post) = true := by
  induction pre with
  | nil =>
    simp only [listContains, List.isEmpty_iff] at h
    subst h
    exact listContains_nil post
  | cons a rest ih =>
    simp only [listContains, Bool.or_eq_true] at h
    rcases h with h | h
    · simp only [List.cons_append, listContains, Bool.or_eq_true]
      exact Or.inl (listPrefixOf_append n (a :: rest) post h)
    · simp only [List.cons_append, listContains, Bool.or_eq_true]
      exact Or.inr (ih h)

/-- Containment in the right part survives prepending on the left. -/
lemma listContains_append_right (n pre post : List Char)
    (h : listContains n post = true) : listContains n (pre ++ post) = true := by
  induction pre with
  | nil => exact h
  | cons a rest ih =>
    simp only [List.cons_append, listContains, Bool.or_eq_true]
    exact Or.inr ih

/-- Outcome of the single POST performed by `WorkflowClient.generate_workflow`:
either the backend answered with an HTTP status and body, or the request
raised (connection failure or other transport exception). -/
inductive HttpOutcome where
  | response (status : Nat) (body : String)
  | exception (message : String)

/-- Shape of the dict `generate_workflow` returns: on a 200 response the
backend's JSON body verbatim, otherwise `{"success": False, "error": ...}`. -/
inductive GenerateResult where
  | backendData (body : String)
  | failure (error : String)
deriving DecidableEq

/-- The response handling of `WorkflowClient.generate_workflow`:
status 200 returns the parsed body; any other status returns
`{"success": False, "error": f"Backend error: {error_text}"}`; a raised
exception returns
`{"success": False, "error": f"Failed to connect to backend: {str(e)}"}`. -/
def generate_workflow_response (outcome : HttpOutcome) : GenerateResult :=
  match outcome with
  | .response status body =>
      if status == 200 then .backendData body
      else .failure ("Backend error: " ++ body)
  | .exception e => .failure ("Failed to connect to backend: " ++ e)

/-- C4 counterexample: a 404 response with body "Not Found" yields
`{"success": False, "error": "Backend error: Not Found"}`, whose error
message does not contain the backend's status code "404". -/
theorem c4_error_lacks_status_code :
    generate_workflow_response (.response 404 "Not Found") =
      .failure "Backend error: Not Found" ∧
    strIn "404" "Backend error: Not Found" = false := by
  decide

/-- C4 amended: a non-200 status yields a failure whose error message is
"Backend error: " followed by (hence containing) the response body, while a
raised exception yields a failure whose error message contains "connect";
the two failure kinds are distinguishable by their fixed prefixes. -/
theorem generate_workflow_error_shapes (status : Nat) (body e : String)
    (hstatus : status ≠ 200) :
    generate_workflow_response (.response status body) =
      .failure ("Backend error: " ++ body) ∧
    strIn body ("Backend error: " ++ body) = true ∧
    generate_workflow_response (.exception e) =
      .failure ("Failed to connect to backend: " ++ e) ∧
    strIn "connect" ("Failed to connect to backend: " ++ e) = true := by
  refine ⟨?_, ?_, rfl, ?_⟩
  · simp [generate_workflow_response, hstatus]
  · show listContains body.data ("Backend error: " ++ body).data = true
    rw [String.data_append]
    exact listContains_append_right _ _ _ (listContains_refl _)
  · show listContains "connect".data ("Failed to connect to backend: " ++ e).data = true
    rw [String.data_append]
    exact listContains_append_left _ _ _ (by decide)

/-- Witness for the amended C4 at status 404, body "Not Found" and exception
text "timeout". -/
theorem generate_workflow_error_shapes_witness :
    (404 ≠ 200) ∧
    (generate_workflow_response (.response 404 "Not Found") =
        .failure ("Backend error: " ++ "Not Found") ∧
      strIn "Not Found" ("Backend error: " ++ "Not Found") = true ∧
      generate_workflow_response (.exception "timeout") =
        .failure ("Failed to connect to backend: " ++ "timeout") ∧
      strIn "connect" ("Failed to connect to backend: " ++ "timeout") = true) :=
  ⟨by decide, generate_workflow_error_shapes 404 "Not Found" "timeout" (by decide)⟩

/-- JSON values appearing in the `generate_workflow` request payload. -/
inductive JsonValue where
  | str (s : String)
  | arr (items : List String)
deriving DecidableEq

/-- Python truthiness of an optional string argument (`if trigger:`):
false for `None` and for the empty string. -/
def pyTruthyStr : Option String → Bool
  | none => false
  | some s => !s.isEmpty

/-- Python truthiness of an optional list argument (`if services:`):
false for `None` and for the empty list. -/
def pyTruthyList : Option (List String) → Bool
  | none => false
  | some l => !l.isEmpty

/-- The `payload` dict built by `WorkflowClient.generate_workflow`:
`description` always, then `trigger`, `services`, `schedule` each appended
only when the corresponding argument is truthy. -/
def generate_workflow_payload (description : String) (trigger : Option String)
    (services : Option (List String)) (schedule : Option String) :
    List (String × JsonValue) :=
  [("description", JsonValue.str description)]
  ++ (match trigger with
      | some t => if !t.isEmpty then [("trigger", JsonValue.str t)] else []
      | none => [])
  ++ (match services with
      | some l => if !l.isEmpty then [("services", JsonValue.arr l)] else []
      | none => [])
  ++ (match schedule with
      | some s => if !s.isEmpty then [("schedule", JsonValue.str s)] else []
      | none => [])

/-- The keys of the POSTed JSON body. -/
def payloadKeys (description : String) (trigger : Option String)
    (services : Option (List String)) (schedule : Option String) : List String :=
  (generate_workflow_payload description trigger services schedule).map Prod.fst

/-- C7 counterexample: with `trigger` supplied as the empty string — a
non-null value — the key "trigger" is nevertheless absent from the payload,
because the code tests Python truthiness, not nullness. -/
theorem c7_empty_trigger_key_absent :
    some "" ≠ (none : Option String) ∧
    "trigger" ∉ payloadKeys "sync leads" (some "") none none := by
  constructor
  · decide
  · decide

/-- C7 amended: the payload contains "description" always, and each of
"trigger", "services", "schedule" exactly when the corresponding argument is
truthy in Python's sense (non-null and non-empty); no other keys appear. -/
theorem generate_workflow_payload_keys (description : String)
    (trigger : Option String) (services : Option (List String))
    (schedule : Option String) :
    "description" ∈ payloadKeys description trigger services schedule ∧
    ("trigger" ∈ payloadKeys description trigger services schedule ↔
      pyTruthyStr trigger = true) ∧
    ("services" ∈ payloadKeys description trigger services schedule ↔
      pyTruthyList services = true) ∧
    ("schedule" ∈ payloadKeys description trigger services schedule ↔
      pyTruthyStr schedule = true) ∧
    ∀ k ∈ payloadKeys description trigger services schedule,
      k ∈ (["description", "trigger", "services", "schedule"] : List String) := by
  rcases trigger with _ | t <;> rcases services with _ | l <;> rcases schedule with _ | s <;>
    simp only [payloadKeys, generate_workflow_payload, pyTruthyStr, pyTruthyList] <;>
    (try by_cases ht : t.isEmpty) <;> (try by_cases hl : l.isEmpty) <;>
    (try by_cases hs : s.isEmpty) <;> simp_all

/-- What `await task.cancel()` does for a registered session's task:
either it completes or it raises (the endpoint's `except` turns a raise
into an HTTP 500). -/
inductive CancelOutcome where
  | ok
  | raises (message : String)
deriving DecidableEq

/-- Result of the `POST /end-session` endpoint: a JSON body
`{"success": True, "message": ...}` or an `HTTPException`. -/
inductive EndSessionResult where
  | success (message : String)
  | httpError (status : Nat) (detail : String)
deriving DecidableEq

/-- The `active_sessions` dict, keyed by room name; the stored value models
how cancelling that session's task behaves. -/
def SessionRegistry : Type := List (String × CancelOutcome)

/-- `end_session` from `main.py`: for a registered room it cancels the task
and answers `{"success": True, "message": "Session ended"}` (HTTP 500 when
the cancel raises); for an unknown room it answers
`{"success": True, "message": "Session not found (already ended)"}`.
No branch modifies `active_sessions`. -/
def end_session (registry : List (String × CancelOutcome)) (room_name : String) :
    EndSessionResult × List (String × CancelOutcome) :=
  match registry.find? (fun p => p.1 == room_name) with
  | some (_, .ok) => (.success "Session ended", registry)
  | some (_, .raises e) => (.httpError 500 e, registry)
  | none => (.success "Session not found (already ended)", registry)

/-- C5: ending a session whose room name is not registered returns success
(not an error), leaves the whole registry — hence every other session's
entry — unchanged, and a second identical call returns success again. -/
theorem end_session_unknown_idempotent (registry : List (String × CancelOutcome))
    (room : String) (h : ∀ p ∈ registry, p.1 ≠ room) :
    (end_session registry room).1 = .success "Session not found (already ended)" ∧
    (end_session registry room).2 = registry ∧
    (end_session (end_session registry room).2 room).1 =
      .success "Session not found (already ended)" := by
  have hfind : registry.find? (fun p => p.1 == room) = none :=
    List.find?_eq_none.mpr (fun x hx => by simpa using h x hx)
  refine ⟨?_, ?_, ?_⟩ <;> simp [end_session, hfind]

/-- Witness for C5: a registry holding only the room "other" and the unknown
room name "gone". -/
theorem end_session_unknown_idempotent_witness :
    (∀ p ∈ ([("other", CancelOutcome.ok)] : List (String × CancelOutcome)),
      p.1 ≠ "gone") ∧
    ((end_session [("other", CancelOutcome.ok)] "gone").1 =
        .success "Session not found (already ended)" ∧
      (end_session [("other", CancelOutcome.ok)] "gone").2 =
        [("other", CancelOutcome.ok)] ∧
      (end_session (end_session [("other", CancelOutcome.ok)] "gone").2 "gone").1 =
        .success "Session not found (already ended)") :=
  ⟨by decide, end_session_unknown_idempotent [("other", CancelOutcome.ok)] "gone" (by decide)⟩

/-- The keys of the `agent_prompts` dict in `run_bot`. -/
def agent_prompts_keys : List String :=
  ["orchestrator", "sales", "support", "operations", "technical"]

/-- `switch_to_agent` from `run_bot`: change `current_agent_ref` and report
`True` only when the requested name is a known prompt key different from the
current one; otherwise leave the state alone and report `False`. The
frontend notification is a logged best-effort side effect with no influence
on the returned value or the state. Result: (changed flag, new current). -/
def switch_to_agent (current : String) (agent_name : String) : Bool × String :=
  if agent_name ∈ agent_prompts_keys ∧ agent_name ≠ current then
    (true, agent_name)
  else
    (false, current)

/-- C6: switching to the label that is already current is a no-op — the
changed flag is false and the current specialist is unchanged. -/
theorem switch_to_agent_self_noop (current agent_name : String)
    (h : agent_name = current) :
    switch_to_agent current agent_name = (false, current) := by
  subst h
  simp [switch_to_agent]

/-- Witness for C6 at current = requested = "sales". -/
theorem switch_to_agent_self_noop_witness :
    ("sales" : String) = "sales" ∧ switch_to_agent "sales" "sales" = (false, "sales") :=
  ⟨rfl, switch_to_agent_self_noop "sales" "sales" rfl⟩

/-- The `specialist_message` dict lookup in `handle_route_to_agent`,
with its `.get` default. -/
def specialist_message (agent : String) : String :=
  match (([("sales", "Got it! What CRM?"),
           ("support", "Perfect! What ticketing system?"),
           ("operations", "Nice! What data sources?"),
           ("technical", "Cool! What services?")] : List (String × String)).find?
          (fun p => p.1 == agent)) with
  | some p => p.2
  | none => "Great! Let\x27s go!"

/-- The dict `handle_route_to_agent` passes to `result_callback`:
`{"routed": True, "agent": ..., "message": ...}` on a switch,
`{"routed": False, "error": ...}` otherwise. -/
inductive RouteResponse where
  | routedTo (agent : String) (message : String)
  | notRouted (error : String)
deriving DecidableEq

/-- `handle_route_to_agent` from `run_bot`: call `switch_to_agent` and
report `routed: True` with the specialist acknowledgment when it switched,
else `routed: False` with an error text. Result: (callback response, new
current agent). -/
def handle_route_to_agent (current : String) (agent : String) :
    RouteResponse × String :=
  let switched := switch_to_agent current agent
  if switched.1 then
    (RouteResponse.routedTo agent (specialist_message agent), switched.2)
  else
    (RouteResponse.notRouted ("Could not route to " ++ agent), switched.2)

/-- C10: invoking the routing handler with the label already current, or
with a label outside the known prompt keys, answers `routed: False` with an
error — never `routed: True` — while the session state stays unchanged. -/
theorem handle_route_to_agent_rejects_noop (current agent : String)
    (h : agent = current ∨ agent ∉ agent_prompts_keys) :
    (handle_route_to_agent current agent).1 =
      RouteResponse.notRouted ("Could not route to " ++ agent) ∧
    (handle_route_to_agent current agent).2 = current := by
  have hsw : switch_to_agent current agent = (false, current) := by
    rcases h with h | h
    · subst h
      simp [switch_to_agent]
    · simp [switch_to_agent, h]
  simp [handle_route_to_agent, hsw]

/-- Witness for C10: routing to "sales" while "sales" is already current. -/
theorem handle_route_to_agent_rejects_noop_witness :
    (("sales" : String) = "sales" ∨ ("sales" : String) ∉ agent_prompts_keys) ∧
    ((handle_route_to_agent "sales" "sales").1 =
        RouteResponse.notRouted ("Could not route to " ++ "sales") ∧
      (handle_route_to_agent "sales" "sales").2 = "sales") :=
  ⟨Or.inl rfl, handle_route_to_agent_rejects_noop "sales" "sales" (Or.inl rfl)⟩

/-- The `properties` of the POST body `start_session` sends to
`https://api.daily.co/v1/rooms`. -/
structure DailyRoomProperties where
  max_participants : Nat
  enable_chat : Bool
  enable_screenshare : Bool
  enable_recording : Bool
  start_audio_off : Bool
  autojoin : Bool
deriving DecidableEq

/-- The room-creation request body built in `start_session`. -/
def start_session_room_properties : DailyRoomProperties :=
  { max_participants := 2
    enable_chat := false
    enable_screenshare := false
    enable_recording := false
    start_audio_off := false
    autojoin := true }

/-- The `properties` of the POST body `start_session` sends to
`https://api.daily.co/v1/meeting-tokens`. -/
structure DailyTokenProperties where
  room_name : String
  is_owner : Bool
deriving DecidableEq

/-- The meeting-token request body built in `start_session` for the room
returned by the room-creation call. -/
def start_session_token_properties (room_name : String) : DailyTokenProperties :=
  { room_name := room_name
    is_owner := true }

/-- C8 counterexample: the token `start_session` provisions is NOT a
non-owner token — the request sets `is_owner` to `True` (the code comment
calls this CRITICAL so the user can control audio). -/
theorem c8_token_is_owner :
    ¬ ((start_session_token_properties "room-1").is_owner = false) := by
  decide

/-- C8 amended: the room is requested with a 2-participant cap and chat,
screenshare and recording disabled, and the meeting token is scoped to that
room but is an owner token (`is_owner: True`). -/
theorem start_session_requests (room_name : String) :
    start_session_room_properties.max_participants = 2 ∧
    start_session_room_properties.enable_chat = false ∧
    start_session_room_properties.enable_screenshare = false ∧
    start_session_room_properties.enable_recording = false ∧
    (start_session_token_properties room_name).room_name = room_name ∧
    (start_session_token_properties room_name).is_owner = true :=
  ⟨rfl, rfl, rfl, rfl, rfl, rfl⟩
